import Mathlib

/-!
Verification of src/src/ros_gremsy.cpp (the ros_gremsy gimbal node).

The node logic is embedded shallowly:

* the SDK enum types (gimbal status mode, control gimbal mode, axis input
  mode) become inductive types;
* the pure conversion helpers (convertIntGimbalMode,
  convertIntToAxisInputMode, convertImuMavlinkMessageToROSMessage) become
  Lean functions; the C++ switch statements in the two int-mode mappers
  have no default case, so for an unmapped integer control falls off the
  end of a non-void function (undefined behavior); that fall-through is
  modelled by an Option result whose none case marks the undefined path;
* the constructor GimbalNode::GimbalNode lines 72-106 (the Config Gimbal
  section up to the timer creation) becomes a trace-producing function
  over an abstract device: the status returned by the n-th call to
  get_gimbal_status is given by a function statusAt : Nat -> mode, and the
  unbounded while loop is run with explicit fuel, returning the event
  trace produced so far together with a flag telling whether the loop
  finished;
* the timer callback, goal callback and reconfigure callback become
  functions from their inputs (and, for reconfigure, the node state) to
  the messages they publish or the device calls they make.

Numeric telemetry fields (int16_t accelerometer and gyro counts,
int32_t encoder counts) are modelled as Int; the C++ code only copies
them into double message fields, which is exact for these values.
The configured poll rate is modelled as a rational number.
-/

/-- Device-reported gimbal status mode (GIMBAL_STATE_OFF, TURNING_ON, ON
from the SDK header). -/
inductive GimbalStateMode
  | off
  | turningOn
  | on
  deriving DecidableEq, Repr

/-- control_gimbal_mode_t values used by the node: GIMBAL_OFF, LOCK_MODE,
FOLLOW_MODE. -/
inductive ControlGimbalMode
  | gimbalOff
  | lockMode
  | followMode
  deriving DecidableEq, Repr

/-- control_gimbal_axis_input_mode_t values used by the node:
CTRL_ANGLE_BODY_FRAME, CTRL_ANGULAR_RATE, CTRL_ANGLE_ABSOLUTE_FRAME. -/
inductive AxisInputMode
  | ctrlAngleBodyFrame
  | ctrlAngularRate
  | ctrlAngleAbsoluteFrame
  deriving DecidableEq, Repr

/-- GimbalNode::convertIntGimbalMode, lines 155-162.  The switch maps
0, 1, 2 and has no default case, so any other argument falls off the end
of the function: that undefined path is modelled as none. -/
def convertIntGimbalMode (mode : Int) : Option ControlGimbalMode :=
  if mode = 0 then some ControlGimbalMode.gimbalOff
  else if mode = 1 then some ControlGimbalMode.lockMode
  else if mode = 2 then some ControlGimbalMode.followMode
  else none

/-- GimbalNode::convertIntToAxisInputMode, lines 164-171.  Same shape as
convertIntGimbalMode: no default case, the unmapped path is none. -/
def convertIntToAxisInputMode (mode : Int) : Option AxisInputMode :=
  if mode = 0 then some AxisInputMode.ctrlAngleBodyFrame
  else if mode = 1 then some AxisInputMode.ctrlAngularRate
  else if mode = 2 then some AxisInputMode.ctrlAngleAbsoluteFrame
  else none

/-- mavlink_raw_imu_t as used by the node: accelerometer and gyro counts
plus the device time stamp. -/
structure MavlinkRawImu where
  xacc : Int
  yacc : Int
  zacc : Int
  xgyro : Int
  ygyro : Int
  zgyro : Int
  time_usec : Nat
  deriving DecidableEq, Repr

/-- A three-component vector as found in the ROS messages. -/
structure Vec3 where
  x : Int
  y : Int
  z : Int
  deriving DecidableEq, Repr

/-- The parts of sensor_msgs::Imu the node fills in. -/
structure ImuMsg where
  linear_acceleration : Vec3
  angular_velocity : Vec3
  deriving DecidableEq, Repr

/-- GimbalNode::convertImuMavlinkMessageToROSMessage, lines 138-153:
copies the six accelerometer and gyro fields into the ROS message with no
scaling. -/
def convertImuMavlinkMessageToROSMessage (message : MavlinkRawImu) : ImuMsg :=
  { linear_acceleration := { x := message.xacc, y := message.yacc, z := message.zacc }
    angular_velocity := { x := message.xgyro, y := message.ygyro, z := message.zgyro } }

/-- mavlink_mount_status_t as used by the node: the three encoder
pointing fields. -/
structure MavlinkMountStatus where
  pointing_a : Int
  pointing_b : Int
  pointing_c : Int
  deriving DecidableEq, Repr

/-- geometry_msgs::Vector3Stamped as used by the node (only the vector
part is ever written or read). -/
structure Vector3Stamped where
  vector : Vec3
  deriving DecidableEq, Repr

/-- What the device hands the timer callback in one tick: the raw IMU
record, the raw_imu entry of get_gimbal_time_stamps, and the mount
status. -/
structure DeviceTelemetry where
  raw_imu : MavlinkRawImu
  raw_imu_stamp : Nat
  mount_status : MavlinkMountStatus
  deriving DecidableEq, Repr

/-- A message published by the timer callback, on /gimbal/imu/data or on
/gimbal/encoder. -/
inductive PubEvent
  | imuPub (msg : ImuMsg)
  | encoderPub (msg : Vector3Stamped)
  deriving DecidableEq, Repr

/-- GimbalNode::gimbalStateTimerCallback, lines 111-131: overwrite the
IMU time stamp with the device time stamp, translate and publish the IMU
message, then publish the mount status with axes reordered
(x from pointing_b, y from pointing_a, z from pointing_c). -/
def gimbalStateTimerCallback (t : DeviceTelemetry) : List PubEvent :=
  let imu_mav : MavlinkRawImu := { t.raw_imu with time_usec := t.raw_imu_stamp }
  let imu_ros_mag := convertImuMavlinkMessageToROSMessage imu_mav
  let encoder_ros_msg : Vector3Stamped :=
    { vector := { x := t.mount_status.pointing_b
                  y := t.mount_status.pointing_a
                  z := t.mount_status.pointing_c } }
  [PubEvent.imuPub imu_ros_mag, PubEvent.encoderPub encoder_ros_msg]

/-- A call made on the Gimbal_Interface SDK object. -/
inductive DeviceCall
  | setGimbalMove (pitch roll yaw : Int)
  deriving DecidableEq, Repr

/-- GimbalNode::setGoalsCallback, lines 133-136: one call to
set_gimbal_move with arguments (vector.y, vector.x, vector.z). -/
def setGoalsCallback (message : Vector3Stamped) : List DeviceCall :=
  [DeviceCall.setGimbalMove message.vector.y message.vector.x message.vector.z]

/-- ros_gremsy::ROSGremsyConfig: the dynamic-reconfigure parameter
snapshot stored in config_. -/
structure ROSGremsyConfig where
  device : String
  baudrate : Nat
  gimbal_mode : Int
  tilt_axis_input_mode : Int
  tilt_axis_stabilize : Bool
  roll_axis_input_mode : Int
  roll_axis_stabilize : Bool
  pan_axis_input_mode : Int
  pan_axis_stabilize : Bool
  state_poll_rate : ℚ
  deriving DecidableEq, Repr

/-- control_gimbal_axis_mode_t as the constructor builds it: the input
mode field carries the possibly undefined result of
convertIntToAxisInputMode. -/
structure AxisModeArg where
  input_mode : Option AxisInputMode
  stabilize : Bool
  deriving DecidableEq, Repr

/-- One step of the constructor code in lines 72-106, recorded in order:
get_gimbal_status with the mode it returned, set_gimbal_motor_mode
(TURN_ON), the sleeps inside the wait loop (milliseconds),
set_gimbal_mode, set_gimbal_axes_mode, and the createTimer call with the
poll rate the period 1/state_poll_rate is computed from. -/
inductive BringupEvent
  | getStatus (observed : GimbalStateMode)
  | setMotorOn
  | sleep (ms : Nat)
  | setMode (mode : Option ControlGimbalMode)
  | setAxesModes (tilt roll pan : AxisModeArg)
  | armTimer (rate : ℚ)
  deriving DecidableEq, Repr

/-- The while loop in lines 80-83: call get_gimbal_status; if the mode is
GIMBAL_STATE_ON leave the loop, otherwise sleep 50 ms and repeat.  The
n-th get_gimbal_status call of the constructor returns statusAt n; the
loop polls from index i on.  The loop is unbounded in the C++ code, so it
is run here on explicit fuel: the result is the trace produced and true
when the loop exited, or the trace so far and false when the fuel ran out
with the loop still running. -/
def pollUntilOn (statusAt : Nat → GimbalStateMode) : Nat → Nat → List BringupEvent × Bool
  | _, 0 => ([], false)
  | i, fuel + 1 =>
    if statusAt i = GimbalStateMode.on then
      ([BringupEvent.getStatus (statusAt i)], true)
    else
      let r := pollUntilOn statusAt (i + 1) fuel
      (BringupEvent.getStatus (statusAt i) :: BringupEvent.sleep 50 :: r.1, r.2)

/-- The Config Gimbal section of GimbalNode::GimbalNode, lines 72-106:
check the status once (consuming statusAt 0); if it is GIMBAL_STATE_OFF
issue set_gimbal_motor_mode(TURN_ON); run the wait loop from index 1;
then set the gimbal mode from config_.gimbal_mode, set the three axis
modes built from the config fields, and create the polling timer.  The
boolean is true when the constructor got past the wait loop (within the
given fuel) and false when the wait loop was still running. -/
def gimbalNodeBringup (cfg : ROSGremsyConfig) (statusAt : Nat → GimbalStateMode)
    (fuel : Nat) : List BringupEvent × Bool :=
  let pre : List BringupEvent :=
    BringupEvent.getStatus (statusAt 0) ::
      (if statusAt 0 = GimbalStateMode.off then [BringupEvent.setMotorOn] else [])
  let r := pollUntilOn statusAt 1 fuel
  if r.2 then
    (pre ++ r.1 ++
      [BringupEvent.setMode (convertIntGimbalMode cfg.gimbal_mode),
       BringupEvent.setAxesModes
         { input_mode := convertIntToAxisInputMode cfg.tilt_axis_input_mode,
           stabilize := cfg.tilt_axis_stabilize }
         { input_mode := convertIntToAxisInputMode cfg.roll_axis_input_mode,
           stabilize := cfg.roll_axis_stabilize }
         { input_mode := convertIntToAxisInputMode cfg.pan_axis_input_mode,
           stabilize := cfg.pan_axis_stabilize },
       BringupEvent.armTimer cfg.state_poll_rate], true)
  else
    (pre ++ r.1, false)

/-- The node state that persists after the constructor finished: the
stored config_, the poll rate the armed timer period was computed from,
and the mode arguments sent to the device during bring-up. -/
structure GimbalNodeState where
  config_ : ROSGremsyConfig
  timerRate : ℚ
  appliedGimbalMode : Option ControlGimbalMode
  appliedTilt : AxisModeArg
  appliedRoll : AxisModeArg
  appliedPan : AxisModeArg
  deriving DecidableEq, Repr

/-- The node state as the constructor leaves it when it was built from
configuration cfg: the timer rate and the applied modes all come from
cfg (lines 87-106). -/
def initialNodeState (cfg : ROSGremsyConfig) : GimbalNodeState :=
  { config_ := cfg
    timerRate := cfg.state_poll_rate
    appliedGimbalMode := convertIntGimbalMode cfg.gimbal_mode
    appliedTilt := { input_mode := convertIntToAxisInputMode cfg.tilt_axis_input_mode,
                     stabilize := cfg.tilt_axis_stabilize }
    appliedRoll := { input_mode := convertIntToAxisInputMode cfg.roll_axis_input_mode,
                     stabilize := cfg.roll_axis_stabilize }
    appliedPan := { input_mode := convertIntToAxisInputMode cfg.pan_axis_input_mode,
                    stabilize := cfg.pan_axis_stabilize } }

/-- GimbalNode::reconfigureCallback, lines 173-175: the body is the single
assignment config_ = config.  It returns the new node state together with
the list of device calls the body makes, which is empty. -/
def reconfigureCallback (s : GimbalNodeState) (config : ROSGremsyConfig) :
    GimbalNodeState × List BringupEvent :=
  ({ s with config_ := config }, [])

/-- True exactly on set_gimbal_motor_mode(TURN_ON) events. -/
def isSetMotorOnEv : BringupEvent → Bool
  | BringupEvent.setMotorOn => true
  | _ => false

/-- True exactly on set_gimbal_mode events. -/
def isSetModeEv : BringupEvent → Bool
  | BringupEvent.setMode _ => true
  | _ => false

/-- True exactly on set_gimbal_axes_mode events. -/
def isSetAxesEv : BringupEvent → Bool
  | BringupEvent.setAxesModes _ _ _ => true
  | _ => false

/-- True exactly on createTimer events. -/
def isArmTimerEv : BringupEvent → Bool
  | BringupEvent.armTimer _ => true
  | _ => false

/-- True exactly on get_gimbal_status calls that returned
GIMBAL_STATE_ON. -/
def isOnObservation : BringupEvent → Bool
  | BringupEvent.getStatus GimbalStateMode.on => true
  | _ => false

lemma pollUntilOn_events (statusAt : Nat → GimbalStateMode) :
    ∀ fuel i, ∀ e ∈ (pollUntilOn statusAt i fuel).1,
      (∃ s, e = BringupEvent.getStatus s) ∨ e = BringupEvent.sleep 50 := by
  intro fuel
  induction fuel with
  | zero => intro i e he; simp [pollUntilOn] at he
  | succ n ih =>
    intro i e he
    by_cases h : statusAt i = GimbalStateMode.on
    · simp [pollUntilOn, h] at he
      exact Or.inl ⟨_, he⟩
    · simp only [pollUntilOn, if_neg h, List.mem_cons] at he
      rcases he with rfl | rfl | he
      · exact Or.inl ⟨_, rfl⟩
      · exact Or.inr rfl
      · exact ih (i + 1) e he

lemma pollUntilOn_done_shape (statusAt : Nat → GimbalStateMode) :
    ∀ fuel i, (pollUntilOn statusAt i fuel).2 = true →
      ∃ P, (pollUntilOn statusAt i fuel).1 =
        P ++ [BringupEvent.getStatus GimbalStateMode.on] ∧
        (∀ e ∈ P, (∃ s, e = BringupEvent.getStatus s) ∨ e = BringupEvent.sleep 50) := by
  intro fuel
  induction fuel with
  | zero => intro i h; simp [pollUntilOn] at h
  | succ n ih =>
    intro i h
    by_cases hs : statusAt i = GimbalStateMode.on
    · refine ⟨[], ?_, by simp⟩
      simp [pollUntilOn, hs]
    · simp only [pollUntilOn, if_neg hs] at h ⊢
      obtain ⟨P, hP, hPev⟩ := ih (i + 1) h
      refine ⟨BringupEvent.getStatus (statusAt i) :: BringupEvent.sleep 50 :: P, ?_, ?_⟩
      · simp [hP]
      · intro e he
        simp only [List.mem_cons] at he
        rcases he with rfl | rfl | he
        · exact Or.inl ⟨_, rfl⟩
        · exact Or.inr rfl
        · exact hPev e he

lemma pollUntilOn_not_done (statusAt : Nat → GimbalStateMode) :
    ∀ fuel i, (∀ n, i ≤ n → statusAt n ≠ GimbalStateMode.on) →
      (pollUntilOn statusAt i fuel).2 = false := by
  intro fuel
  induction fuel with
  | zero => intro i _; simp [pollUntilOn]
  | succ n ih =>
    intro i h
    have hs : statusAt i ≠ GimbalStateMode.on := h i le_rfl
    simp only [pollUntilOn, if_neg hs]
    exact ih (i + 1) fun n hn => h n (by omega)

lemma pollUntilOn_done_of_on (statusAt : Nat → GimbalStateMode) :
    ∀ k i, statusAt (i + k) = GimbalStateMode.on →
      (pollUntilOn statusAt i (k + 1)).2 = true := by
  intro k
  induction k with
  | zero =>
    intro i h
    rw [Nat.add_zero] at h
    simp [pollUntilOn, h]
  | succ n ih =>
    intro i h
    by_cases hs : statusAt i = GimbalStateMode.on
    · simp [pollUntilOn, hs]
    · simp only [pollUntilOn, if_neg hs]
      exact ih (i + 1) (by rw [show i + 1 + n = i + (n + 1) by omega]; exact h)

lemma pollUntilOn_on_of_done (statusAt : Nat → GimbalStateMode) :
    ∀ fuel i, (pollUntilOn statusAt i fuel).2 = true →
      ∃ n, i ≤ n ∧ statusAt n = GimbalStateMode.on := by
  intro fuel
  induction fuel with
  | zero => intro i h; simp [pollUntilOn] at h
  | succ n ih =>
    intro i h
    by_cases hs : statusAt i = GimbalStateMode.on
    · exact ⟨i, le_rfl, hs⟩
    · simp only [pollUntilOn, if_neg hs] at h
      obtain ⟨m, hm, hon⟩ := ih (i + 1) h
      exact ⟨m, by omega, hon⟩

lemma index_lt_of_append (l1 l2 : List BringupEvent) (p q : BringupEvent → Bool)
    (h1 : ∀ e ∈ l1, q e = false) (h2 : ∀ e ∈ l2, p e = false) :
    ∀ (i j : Nat) (ei ej : BringupEvent), (l1 ++ l2)[i]? = some ei →
      (l1 ++ l2)[j]? = some ej → p ei = true → q ej = true → i < j := by
  intro i j ei ej hi hj hp hq
  have hil : i < l1.length := by
    by_contra hge
    push_neg at hge
    rw [List.getElem?_append_right hge] at hi
    have hf := h2 ei (List.getElem?_mem hi)
    rw [hf] at hp
    exact Bool.noConfusion hp
  have hjl : l1.length ≤ j := by
    by_contra hlt
    push_neg at hlt
    rw [List.getElem?_append_left hlt] at hj
    have hf := h1 ej (List.getElem?_mem hj)
    rw [hf] at hq
    exact Bool.noConfusion hq
  omega

lemma length_le_of_append (l1 l2 : List BringupEvent) (q : BringupEvent → Bool)
    (h1 : ∀ e ∈ l1, q e = false) :
    ∀ (j : Nat) (ej : BringupEvent), (l1 ++ l2)[j]? = some ej → q ej = true →
      l1.length ≤ j := by
  intro j ej hj hq
  by_contra hlt
  push_neg at hlt
  rw [List.getElem?_append_left hlt] at hj
  have hf := h1 ej (List.getElem?_mem hj)
  rw [hf] at hq
  exact Bool.noConfusion hq

lemma gimbalNodeBringup_snd (cfg : ROSGremsyConfig) (statusAt : Nat → GimbalStateMode)
    (fuel : Nat) :
    (gimbalNodeBringup cfg statusAt fuel).2 = (pollUntilOn statusAt 1 fuel).2 := by
  cases hr : (pollUntilOn statusAt 1 fuel).2 <;> simp [gimbalNodeBringup, hr]

lemma gimbalNodeBringup_fst_done (cfg : ROSGremsyConfig) (statusAt : Nat → GimbalStateMode)
    (fuel : Nat) (hr : (pollUntilOn statusAt 1 fuel).2 = true) :
    (gimbalNodeBringup cfg statusAt fuel).1 =
      (BringupEvent.getStatus (statusAt 0) ::
        (if statusAt 0 = GimbalStateMode.off then [BringupEvent.setMotorOn] else [])) ++
      (pollUntilOn statusAt 1 fuel).1 ++
      [BringupEvent.setMode (convertIntGimbalMode cfg.gimbal_mode),
       BringupEvent.setAxesModes
         { input_mode := convertIntToAxisInputMode cfg.tilt_axis_input_mode,
           stabilize := cfg.tilt_axis_stabilize }
         { input_mode := convertIntToAxisInputMode cfg.roll_axis_input_mode,
           stabilize := cfg.roll_axis_stabilize }
         { input_mode := convertIntToAxisInputMode cfg.pan_axis_input_mode,
           stabilize := cfg.pan_axis_stabilize },
       BringupEvent.armTimer cfg.state_poll_rate] := by
  simp [gimbalNodeBringup, hr]

/-- The shape of a completed bring-up trace that started from OFF: the
initial OFF observation and the motor-on call, then the wait-loop events
ending in the ON observation, then the mode call, the axes call and the
timer creation. -/
def bringupShape (P : List BringupEvent) (m : Option ControlGimbalMode)
    (t r p : AxisModeArg) (q : ℚ) : List BringupEvent :=
  [BringupEvent.getStatus GimbalStateMode.off, BringupEvent.setMotorOn] ++
    (P ++ [BringupEvent.getStatus GimbalStateMode.on]) ++
    [BringupEvent.setMode m, BringupEvent.setAxesModes t r p, BringupEvent.armTimer q]

lemma gimbalNodeBringup_done_decomp (cfg : ROSGremsyConfig)
    (statusAt : Nat → GimbalStateMode) (fuel : Nat) (tr : List BringupEvent)
    (h0 : statusAt 0 = GimbalStateMode.off)
    (htr : gimbalNodeBringup cfg statusAt fuel = (tr, true)) :
    ∃ P, (∀ e ∈ P, (∃ s, e = BringupEvent.getStatus s) ∨ e = BringupEvent.sleep 50) ∧
      tr = bringupShape P (convertIntGimbalMode cfg.gimbal_mode)
        { input_mode := convertIntToAxisInputMode cfg.tilt_axis_input_mode,
          stabilize := cfg.tilt_axis_stabilize }
        { input_mode := convertIntToAxisInputMode cfg.roll_axis_input_mode,
          stabilize := cfg.roll_axis_stabilize }
        { input_mode := convertIntToAxisInputMode cfg.pan_axis_input_mode,
          stabilize := cfg.pan_axis_stabilize }
        cfg.state_poll_rate := by
  have hsnd : (pollUntilOn statusAt 1 fuel).2 = true := by
    have h := congrArg Prod.snd htr
    rw [gimbalNodeBringup_snd] at h
    exact h
  obtain ⟨P, hP, hPev⟩ := pollUntilOn_done_shape statusAt fuel 1 hsnd
  refine ⟨P, hPev, ?_⟩
  have hfst : (gimbalNodeBringup cfg statusAt fuel).1 = tr := congrArg Prod.fst htr
  rw [gimbalNodeBringup_fst_done cfg statusAt fuel hsnd] at hfst
  rw [← hfst, hP, h0]
  simp [bringupShape]

lemma bringupShape_counts (P : List BringupEvent)
    (hPev : ∀ e ∈ P, (∃ s, e = BringupEvent.getStatus s) ∨ e = BringupEvent.sleep 50)
    (m : Option ControlGimbalMode) (t r p : AxisModeArg) (q : ℚ) :
    (bringupShape P m t r p q).countP isSetMotorOnEv = 1 ∧
    (bringupShape P m t r p q).countP isSetModeEv = 1 ∧
    (bringupShape P m t r p q).countP isSetAxesEv = 1 := by
  have hP1 : P.countP isSetMotorOnEv = 0 := by
    rw [List.countP_eq_zero]
    intro e he
    rcases hPev e he with ⟨s, rfl⟩ | rfl <;> exact Bool.false_ne_true
  have hP2 : P.countP isSetModeEv = 0 := by
    rw [List.countP_eq_zero]
    intro e he
    rcases hPev e he with ⟨s, rfl⟩ | rfl <;> exact Bool.false_ne_true
  have hP3 : P.countP isSetAxesEv = 0 := by
    rw [List.countP_eq_zero]
    intro e he
    rcases hPev e he with ⟨s, rfl⟩ | rfl <;> exact Bool.false_ne_true
  refine ⟨?_, ?_, ?_⟩ <;>
    simp [bringupShape, List.countP_append, List.countP_cons, hP1, hP2, hP3,
      isSetMotorOnEv, isSetModeEv, isSetAxesEv]

lemma bringupShape_motorOn_before_on (P : List BringupEvent)
    (hPev : ∀ e ∈ P, (∃ s, e = BringupEvent.getStatus s) ∨ e = BringupEvent.sleep 50)
    (m : Option ControlGimbalMode) (t r p : AxisModeArg) (q : ℚ) :
    ∀ (i j : Nat) (ei ej : BringupEvent),
      (bringupShape P m t r p q)[i]? = some ei →
      (bringupShape P m t r p q)[j]? = some ej →
      isSetMotorOnEv ei = true → isOnObservation ej = true → i < j := by
  intro i j ei ej hi hj hp hq
  simp only [bringupShape] at hi hj
  rw [List.append_assoc] at hi hj
  refine index_lt_of_append _ _ isSetMotorOnEv isOnObservation ?_ ?_ i j ei ej hi hj hp hq
  · intro e he
    simp only [List.mem_cons, List.not_mem_nil, or_false] at he
    rcases he with rfl | rfl <;> rfl
  · intro e he
    simp only [List.mem_append, List.mem_cons, List.not_mem_nil, or_false] at he
    rcases he with (he | rfl) | (rfl | rfl | rfl)
    · rcases hPev e he with ⟨s, rfl⟩ | rfl <;> rfl
    all_goals rfl

lemma getElem?_marker (A B C : List BringupEvent) (e : BringupEvent) :
    (A ++ (B ++ [e]) ++ C)[A.length + B.length]? = some e := by
  have h1 : A.length + B.length < (A ++ (B ++ [e])).length := by
    simp [List.length_append]
  rw [List.getElem?_append_left h1]
  have h2 : A.length ≤ A.length + B.length := by omega
  rw [List.getElem?_append_right h2, Nat.add_sub_cancel_left,
    List.getElem?_append_right le_rfl, Nat.sub_self]
  rfl

lemma bringupShape_on_before_mode (P : List BringupEvent)
    (hPev : ∀ e ∈ P, (∃ s, e = BringupEvent.getStatus s) ∨ e = BringupEvent.sleep 50)
    (m : Option ControlGimbalMode) (t r p : AxisModeArg) (q : ℚ) :
    ∀ (j : Nat) (ej : BringupEvent),
      (bringupShape P m t r p q)[j]? = some ej →
      isSetModeEv ej = true ∨ isSetAxesEv ej = true →
      ∃ i : Nat, i < j ∧
        (bringupShape P m t r p q)[i]? =
          some (BringupEvent.getStatus GimbalStateMode.on) := by
  intro j ej hj hq
  simp only [bringupShape] at hj ⊢
  have hq2 : (isSetModeEv ej || isSetAxesEv ej) = true := by
    rcases hq with h | h <;> simp [h]
  have h1 : ∀ e ∈ ([BringupEvent.getStatus GimbalStateMode.off, BringupEvent.setMotorOn] ++
      (P ++ [BringupEvent.getStatus GimbalStateMode.on])),
      (fun e => isSetModeEv e || isSetAxesEv e) e = false := by
    intro e he
    simp only [List.mem_append, List.mem_cons, List.not_mem_nil, or_false] at he
    rcases he with (rfl | rfl) | (he | rfl)
    · rfl
    · rfl
    · rcases hPev e he with ⟨s, rfl⟩ | rfl <;> rfl
    · rfl
  have hlen := length_le_of_append _ _ (fun e => isSetModeEv e || isSetAxesEv e)
    h1 j ej hj hq2
  refine ⟨2 + P.length, ?_, ?_⟩
  · simp only [List.length_append, List.length_cons, List.length_nil] at hlen
    omega
  · have hmk := getElem?_marker
      [BringupEvent.getStatus GimbalStateMode.off, BringupEvent.setMotorOn] P
      [BringupEvent.setMode m, BringupEvent.setAxesModes t r p, BringupEvent.armTimer q]
      (BringupEvent.getStatus GimbalStateMode.on)
    simpa using hmk

lemma bringupShape_mode_before_axes (P : List BringupEvent)
    (hPev : ∀ e ∈ P, (∃ s, e = BringupEvent.getStatus s) ∨ e = BringupEvent.sleep 50)
    (m : Option ControlGimbalMode) (t r p : AxisModeArg) (q : ℚ) :
    ∀ (i j : Nat) (ei ej : BringupEvent),
      (bringupShape P m t r p q)[i]? = some ei →
      (bringupShape P m t r p q)[j]? = some ej →
      isSetModeEv ei = true → isSetAxesEv ej = true → i < j := by
  intro i j ei ej hi hj hp hq
  have hsplit : bringupShape P m t r p q =
      (([BringupEvent.getStatus GimbalStateMode.off, BringupEvent.setMotorOn] ++
        (P ++ [BringupEvent.getStatus GimbalStateMode.on])) ++ [BringupEvent.setMode m]) ++
      [BringupEvent.setAxesModes t r p, BringupEvent.armTimer q] := by
    simp [bringupShape]
  rw [hsplit] at hi hj
  refine index_lt_of_append _ _ isSetModeEv isSetAxesEv ?_ ?_ i j ei ej hi hj hp hq
  · intro e he
    simp only [List.mem_append, List.mem_cons, List.not_mem_nil, or_false] at he
    rcases he with ((rfl | rfl) | (he | rfl)) | rfl
    · rfl
    · rfl
    · rcases hPev e he with ⟨s, rfl⟩ | rfl <;> rfl
    · rfl
    · rfl
  · intro e he
    simp only [List.mem_cons, List.not_mem_nil, or_false] at he
    rcases he with rfl | rfl <;> rfl

/-- C1: during bring-up with the device initially reporting OFF, whenever
the constructor gets past the wait loop (trace tr, completion flag true)
it has called set_gimbal_motor_mode exactly once, set_gimbal_mode exactly
once and set_gimbal_axes_mode exactly once; the motor-on call precedes
every observation of GIMBAL_STATE_ON; every set_gimbal_mode and every
set_gimbal_axes_mode call is preceded by an observation of
GIMBAL_STATE_ON; and the set_gimbal_mode call precedes the
set_gimbal_axes_mode call. -/
theorem bringup_sequencer_order (cfg : ROSGremsyConfig)
    (statusAt : Nat → GimbalStateMode) (fuel : Nat) (tr : List BringupEvent)
    (h0 : statusAt 0 = GimbalStateMode.off)
    (htr : gimbalNodeBringup cfg statusAt fuel = (tr, true)) :
    tr.countP isSetMotorOnEv = 1 ∧
    tr.countP isSetModeEv = 1 ∧
    tr.countP isSetAxesEv = 1 ∧
    (∀ (i j : Nat) (ei ej : BringupEvent), tr[i]? = some ei → tr[j]? = some ej →
      isSetMotorOnEv ei = true → isOnObservation ej = true → i < j) ∧
    (∀ (j : Nat) (ej : BringupEvent), tr[j]? = some ej →
      isSetModeEv ej = true ∨ isSetAxesEv ej = true →
      ∃ i : Nat, i < j ∧ tr[i]? = some (BringupEvent.getStatus GimbalStateMode.on)) ∧
    (∀ (i j : Nat) (ei ej : BringupEvent), tr[i]? = some ei → tr[j]? = some ej →
      isSetModeEv ei = true → isSetAxesEv ej = true → i < j) := by
  obtain ⟨P, hPev, hdec⟩ := gimbalNodeBringup_done_decomp cfg statusAt fuel tr h0 htr
  subst hdec
  obtain ⟨hc1, hc2, hc3⟩ := bringupShape_counts P hPev _ _ _ _ _
  exact ⟨hc1, hc2, hc3,
    bringupShape_motorOn_before_on P hPev _ _ _ _ _,
    bringupShape_on_before_mode P hPev _ _ _ _ _,
    bringupShape_mode_before_axes P hPev _ _ _ _ _⟩

/-- A concrete configuration used to exercise the theorems: lock mode,
body-frame tilt, rate pan, absolute roll, 10 Hz polling. -/
def sampleConfig : ROSGremsyConfig :=
  { device := "/dev/ttyUSB0"
    baudrate := 115200
    gimbal_mode := 1
    tilt_axis_input_mode := 0
    tilt_axis_stabilize := true
    roll_axis_input_mode := 2
    roll_axis_stabilize := false
    pan_axis_input_mode := 1
    pan_axis_stabilize := true
    state_poll_rate := 10 }

/-- A concrete device status history: OFF for the first two status reads,
ON from the third read on. -/
def sampleStatusAt (n : Nat) : GimbalStateMode :=
  if n < 2 then GimbalStateMode.off else GimbalStateMode.on

lemma gimbalNodeBringup_fst_not_done (cfg : ROSGremsyConfig)
    (statusAt : Nat → GimbalStateMode) (fuel : Nat)
    (hr : (pollUntilOn statusAt 1 fuel).2 = false) :
    (gimbalNodeBringup cfg statusAt fuel).1 =
      (BringupEvent.getStatus (statusAt 0) ::
        (if statusAt 0 = GimbalStateMode.off then [BringupEvent.setMotorOn] else [])) ++
      (pollUntilOn statusAt 1 fuel).1 := by
  simp [gimbalNodeBringup, hr]

lemma gimbalNodeBringup_sleep_ms (cfg : ROSGremsyConfig)
    (statusAt : Nat → GimbalStateMode) (fuel : Nat) :
    ∀ e ∈ (gimbalNodeBringup cfg statusAt fuel).1, ∀ ms : Nat,
      e = BringupEvent.sleep ms → ms = 50 := by
  intro e he ms hms
  subst hms
  by_cases hr : (pollUntilOn statusAt 1 fuel).2 = true
  · rw [gimbalNodeBringup_fst_done cfg statusAt fuel hr] at he
    simp only [List.mem_append, List.mem_cons, List.not_mem_nil, or_false] at he
    rcases he with (he | he) | he
    · by_cases h0 : statusAt 0 = GimbalStateMode.off <;> simp [h0] at he
    · rcases pollUntilOn_events statusAt fuel 1 _ he with ⟨s, hs⟩ | hs
      · exact absurd hs (by simp)
      · injection hs
    · simp at he
  · have hr2 : (pollUntilOn statusAt 1 fuel).2 = false := by
      cases h : (pollUntilOn statusAt 1 fuel).2
      · rfl
      · exact absurd h hr
    rw [gimbalNodeBringup_fst_not_done cfg statusAt fuel hr2] at he
    simp only [List.mem_append, List.mem_cons] at he
    rcases he with he | he
    · by_cases h0 : statusAt 0 = GimbalStateMode.off <;> simp [h0] at he
    · rcases pollUntilOn_events statusAt fuel 1 _ he with ⟨s, hs⟩ | hs
      · exact absurd hs (by simp)
      · injection hs

/-- C9: the wait for ON is an unbounded 50 ms poll loop with no timeout.
If the device never reports ON after the initial read, no fuel bound
makes bring-up complete and no mode-set, axes-set or timer event is ever
emitted; bring-up completes exactly when some poll observes ON; and every
sleep in the bring-up trace is the 50 ms retry sleep. -/
theorem bringup_wait_unbounded (cfg : ROSGremsyConfig)
    (statusAt : Nat → GimbalStateMode) :
    ((∀ n, 1 ≤ n → statusAt n ≠ GimbalStateMode.on) →
      ∀ fuel, (gimbalNodeBringup cfg statusAt fuel).2 = false ∧
        ∀ e ∈ (gimbalNodeBringup cfg statusAt fuel).1,
          isSetModeEv e = false ∧ isSetAxesEv e = false ∧ isArmTimerEv e = false) ∧
    (∀ fuel, (gimbalNodeBringup cfg statusAt fuel).2 = true →
      ∃ i, 1 ≤ i ∧ statusAt i = GimbalStateMode.on) ∧
    ((∃ i, 1 ≤ i ∧ statusAt i = GimbalStateMode.on) →
      ∃ fuel, (gimbalNodeBringup cfg statusAt fuel).2 = true) ∧
    (∀ (fuel j ms : Nat),
      (gimbalNodeBringup cfg statusAt fuel).1[j]? = some (BringupEvent.sleep ms) →
      ms = 50) := by
  refine ⟨?_, ?_, ?_, ?_⟩
  · intro hnever fuel
    have hr : (pollUntilOn statusAt 1 fuel).2 = false :=
      pollUntilOn_not_done statusAt fuel 1 hnever
    constructor
    · rw [gimbalNodeBringup_snd]
      exact hr
    · intro e he
      rw [gimbalNodeBringup_fst_not_done cfg statusAt fuel hr] at he
      simp only [List.mem_append, List.mem_cons] at he
      rcases he with he | he
      · rcases he with rfl | he
        · exact ⟨rfl, rfl, rfl⟩
        · by_cases h0 : statusAt 0 = GimbalStateMode.off <;> simp [h0] at he
          subst he
          exact ⟨rfl, rfl, rfl⟩
      · rcases pollUntilOn_events statusAt fuel 1 _ he with ⟨s, rfl⟩ | rfl
        · exact ⟨rfl, rfl, rfl⟩
        · exact ⟨rfl, rfl, rfl⟩
  · intro fuel hdone
    rw [gimbalNodeBringup_snd] at hdone
    exact pollUntilOn_on_of_done statusAt fuel 1 hdone
  · rintro ⟨i, hi, hon⟩
    refine ⟨i, ?_⟩
    rw [gimbalNodeBringup_snd]
    have h1 : statusAt (1 + (i - 1)) = GimbalStateMode.on := by
      rw [show 1 + (i - 1) = i by omega]
      exact hon
    have := pollUntilOn_done_of_on statusAt (i - 1) 1 h1
    rw [show i - 1 + 1 = i by omega] at this
    exact this
  · intro fuel j ms hj
    exact gimbalNodeBringup_sleep_ms cfg statusAt fuel _ (List.getElem?_mem hj) ms rfl

/-- The trace gimbalNodeBringup produces on sampleConfig and
sampleStatusAt with fuel 5. -/
def sampleBringupTrace : List BringupEvent :=
  [BringupEvent.getStatus GimbalStateMode.off,
   BringupEvent.setMotorOn,
   BringupEvent.getStatus GimbalStateMode.off,
   BringupEvent.sleep 50,
   BringupEvent.getStatus GimbalStateMode.on,
   BringupEvent.setMode (some ControlGimbalMode.lockMode),
   BringupEvent.setAxesModes
     { input_mode := some AxisInputMode.ctrlAngleBodyFrame, stabilize := true }
     { input_mode := some AxisInputMode.ctrlAngleAbsoluteFrame, stabilize := false }
     { input_mode := some AxisInputMode.ctrlAngularRate, stabilize := true },
   BringupEvent.armTimer 10]

/-- Witness for bringup_sequencer_order on the sample configuration and
the sample status history. -/
theorem bringup_sequencer_order_witness :
    sampleStatusAt 0 = GimbalStateMode.off ∧
    gimbalNodeBringup sampleConfig sampleStatusAt 5 = (sampleBringupTrace, true) ∧
    (sampleBringupTrace.countP isSetMotorOnEv = 1 ∧
     sampleBringupTrace.countP isSetModeEv = 1 ∧
     sampleBringupTrace.countP isSetAxesEv = 1 ∧
     (∀ (i j : Nat) (ei ej : BringupEvent), sampleBringupTrace[i]? = some ei →
       sampleBringupTrace[j]? = some ej →
       isSetMotorOnEv ei = true → isOnObservation ej = true → i < j) ∧
     (∀ (j : Nat) (ej : BringupEvent), sampleBringupTrace[j]? = some ej →
       isSetModeEv ej = true ∨ isSetAxesEv ej = true →
       ∃ i : Nat, i < j ∧
         sampleBringupTrace[i]? = some (BringupEvent.getStatus GimbalStateMode.on)) ∧
     (∀ (i j : Nat) (ei ej : BringupEvent), sampleBringupTrace[i]? = some ei →
       sampleBringupTrace[j]? = some ej →
       isSetModeEv ei = true → isSetAxesEv ej = true → i < j)) :=
  ⟨rfl, by decide,
    bringup_sequencer_order sampleConfig sampleStatusAt 5 sampleBringupTrace rfl
      (by decide)⟩

/-- A status history that never reports ON. -/
def neverOnStatusAt : Nat → GimbalStateMode :=
  fun _ => GimbalStateMode.off

/-- Witness for bringup_wait_unbounded on the sample configuration and a
device that never reports ON. -/
theorem bringup_wait_unbounded_witness :
    ((∀ n, 1 ≤ n → neverOnStatusAt n ≠ GimbalStateMode.on) →
      ∀ fuel, (gimbalNodeBringup sampleConfig neverOnStatusAt fuel).2 = false ∧
        ∀ e ∈ (gimbalNodeBringup sampleConfig neverOnStatusAt fuel).1,
          isSetModeEv e = false ∧ isSetAxesEv e = false ∧ isArmTimerEv e = false) ∧
    (∀ fuel, (gimbalNodeBringup sampleConfig neverOnStatusAt fuel).2 = true →
      ∃ i, 1 ≤ i ∧ neverOnStatusAt i = GimbalStateMode.on) ∧
    ((∃ i, 1 ≤ i ∧ neverOnStatusAt i = GimbalStateMode.on) →
      ∃ fuel, (gimbalNodeBringup sampleConfig neverOnStatusAt fuel).2 = true) ∧
    (∀ (fuel j ms : Nat),
      (gimbalNodeBringup sampleConfig neverOnStatusAt fuel).1[j]? =
        some (BringupEvent.sleep ms) → ms = 50) :=
  bringup_wait_unbounded sampleConfig neverOnStatusAt

/-- C2: the integer mode mappers take 0, 1, 2 to the documented enum
values. -/
theorem int_mode_mappers_table :
    convertIntGimbalMode 0 = some ControlGimbalMode.gimbalOff ∧
    convertIntGimbalMode 1 = some ControlGimbalMode.lockMode ∧
    convertIntGimbalMode 2 = some ControlGimbalMode.followMode ∧
    convertIntToAxisInputMode 0 = some AxisInputMode.ctrlAngleBodyFrame ∧
    convertIntToAxisInputMode 1 = some AxisInputMode.ctrlAngularRate ∧
    convertIntToAxisInputMode 2 = some AxisInputMode.ctrlAngleAbsoluteFrame := by
  decide

/-- C3 evidence: for integers outside 0, 1, 2 both mappers fall off the
end of the switch, modelled none: no ConfigurationError is raised, the
C++ function just reaches undefined behavior. -/
theorem int_mode_mappers_fall_through :
    convertIntGimbalMode 3 = none ∧ convertIntToAxisInputMode 3 = none ∧
    convertIntGimbalMode (-1) = none ∧ convertIntToAxisInputMode (-1) = none := by
  decide

/-- C4: for every raw IMU record the translated message carries the
acceleration and gyro fields verbatim; in particular the sample record
with fields 1..6 yields linear acceleration (1,2,3) and angular velocity
(4,5,6). -/
theorem imu_translation_verbatim :
    (∀ m : MavlinkRawImu,
      (convertImuMavlinkMessageToROSMessage m).linear_acceleration =
        { x := m.xacc, y := m.yacc, z := m.zacc } ∧
      (convertImuMavlinkMessageToROSMessage m).angular_velocity =
        { x := m.xgyro, y := m.ygyro, z := m.zgyro }) ∧
    convertImuMavlinkMessageToROSMessage
        { xacc := 1, yacc := 2, zacc := 3, xgyro := 4, ygyro := 5, zgyro := 6,
          time_usec := 0 } =
      { linear_acceleration := { x := 1, y := 2, z := 3 },
        angular_velocity := { x := 4, y := 5, z := 6 } } :=
  ⟨fun _ => ⟨rfl, rfl⟩, rfl⟩

/-- C5: every timer tick publishes the mount status as a vector with
x = pointing_b, y = pointing_a, z = pointing_c; in particular the mount
status (10, 20, 30) is published as (20, 10, 30). -/
theorem mount_status_axis_reorder :
    (∀ t : DeviceTelemetry, ∃ imsg : ImuMsg,
      gimbalStateTimerCallback t =
        [PubEvent.imuPub imsg,
         PubEvent.encoderPub
           { vector := { x := t.mount_status.pointing_b,
                         y := t.mount_status.pointing_a,
                         z := t.mount_status.pointing_c } }]) ∧
    gimbalStateTimerCallback
        { raw_imu := { xacc := 0, yacc := 0, zacc := 0, xgyro := 0, ygyro := 0,
                       zgyro := 0, time_usec := 0 },
          raw_imu_stamp := 0,
          mount_status := { pointing_a := 10, pointing_b := 20, pointing_c := 30 } } =
      [PubEvent.imuPub
         { linear_acceleration := { x := 0, y := 0, z := 0 },
           angular_velocity := { x := 0, y := 0, z := 0 } },
       PubEvent.encoderPub { vector := { x := 20, y := 10, z := 30 } }] :=
  ⟨fun t => ⟨convertImuMavlinkMessageToROSMessage
      { t.raw_imu with time_usec := t.raw_imu_stamp }, rfl⟩, rfl⟩

/-- C6: each inbound goal message yields exactly one device call, a
set_gimbal_move with pitch from vector.y, roll from vector.x and yaw from
vector.z. -/
theorem goal_dispatch_single_move :
    (∀ msg : Vector3Stamped,
      setGoalsCallback msg =
        [DeviceCall.setGimbalMove msg.vector.y msg.vector.x msg.vector.z]) ∧
    (∀ msg : Vector3Stamped, (setGoalsCallback msg).length = 1) :=
  ⟨fun _ => rfl, fun _ => rfl⟩

/-- C7: the goal reorder inverts the mount reorder: for mount angles
(pointing_a, pointing_b, pointing_c) = (a, b, c) the tick publishes the
vector (b, a, c), and dispatching that same vector as a goal issues
set_gimbal_move with pitch a, roll b, yaw c; in particular the goal
(x 20, y 10, z 30) dispatches move(10, 20, 30). -/
theorem goal_reorder_inverse_of_mount_reorder :
    (∀ (imu : MavlinkRawImu) (stamp : Nat) (a b c : Int), ∃ imsg : ImuMsg,
      gimbalStateTimerCallback
          { raw_imu := imu, raw_imu_stamp := stamp,
            mount_status := { pointing_a := a, pointing_b := b, pointing_c := c } } =
        [PubEvent.imuPub imsg,
         PubEvent.encoderPub { vector := { x := b, y := a, z := c } }] ∧
      setGoalsCallback { vector := { x := b, y := a, z := c } } =
        [DeviceCall.setGimbalMove a b c]) ∧
    setGoalsCallback { vector := { x := 20, y := 10, z := 30 } } =
      [DeviceCall.setGimbalMove 10 20 30] :=
  ⟨fun imu stamp _ _ _ => ⟨convertImuMavlinkMessageToROSMessage
      { imu with time_usec := stamp }, rfl, rfl⟩, rfl⟩

/-- The sample configuration with an invalid poll rate of zero. -/
def zeroRateConfig : ROSGremsyConfig :=
  { sampleConfig with state_poll_rate := 0 }

/-- C8 evidence: the constructor performs no validation of
state_poll_rate.  With state_poll_rate = 0 bring-up still completes, the
timer is still armed (the C++ computes its period as 1/state_poll_rate,
here 1/0), and the mode-set device call was already issued before it. -/
theorem no_poll_rate_validation :
    (gimbalNodeBringup zeroRateConfig sampleStatusAt 5).2 = true ∧
    BringupEvent.armTimer 0 ∈ (gimbalNodeBringup zeroRateConfig sampleStatusAt 5).1 ∧
    BringupEvent.setMode (some ControlGimbalMode.lockMode) ∈
      (gimbalNodeBringup zeroRateConfig sampleStatusAt 5).1 := by
  decide

/-- C10: the reconfigure callback replaces the stored configuration
snapshot wholesale, makes no device calls, and leaves the armed timer
rate and the modes applied during bring-up untouched; in particular a
node built from cfg0 keeps timer rate cfg0.state_poll_rate and its
applied gimbal mode whatever cfg1 it is later reconfigured to. -/
theorem reconfigure_frame_effect :
    (∀ (s : GimbalNodeState) (config : ROSGremsyConfig),
      (reconfigureCallback s config).1.config_ = config ∧
      (reconfigureCallback s config).1.timerRate = s.timerRate ∧
      (reconfigureCallback s config).1.appliedGimbalMode = s.appliedGimbalMode ∧
      (reconfigureCallback s config).1.appliedTilt = s.appliedTilt ∧
      (reconfigureCallback s config).1.appliedRoll = s.appliedRoll ∧
      (reconfigureCallback s config).1.appliedPan = s.appliedPan ∧
      (reconfigureCallback s config).2 = []) ∧
    (∀ cfg0 cfg1 : ROSGremsyConfig,
      (reconfigureCallback (initialNodeState cfg0) cfg1).1.timerRate =
        cfg0.state_poll_rate ∧
      (reconfigureCallback (initialNodeState cfg0) cfg1).1.appliedGimbalMode =
        convertIntGimbalMode cfg0.gimbal_mode) :=
  ⟨fun _ _ => ⟨rfl, rfl, rfl, rfl, rfl, rfl, rfl⟩, fun _ _ => ⟨rfl, rfl⟩⟩
